import Mathlib

/-!
Shallow embedding of the `discord-webhook-proxy` repository
(`webhook_forwarder.py`, `bot_manager.py`, `src/listener_manager.py`)
and proofs about its event-routing and process-supervision behaviour.

Python dictionaries are modelled as association lists over `String`
keys, Python scalar values by the inductive `PyVal`, and external
effects (HTTP POSTs, process spawning/killing) by explicit oracle
parameters, so every embedded function is a total computable Lean
function.
-/

namespace DWP

/-- Model of the Python values that can appear in the YAML config and in
event-data dictionaries: `None`, strings, ints, bools and lists. -/
inductive PyVal where
  | none : PyVal
  | str (s : String) : PyVal
  | int (n : Int) : PyVal
  | bool (b : Bool) : PyVal
  | list (l : List PyVal) : PyVal

/-- Python truthiness (`bool(v)`): `None`, `""`, `0`, `False` and `[]`
are falsy, everything else is truthy. -/
def pyTruthy : PyVal → Bool
  | .none => false
  | .str s => !s.isEmpty
  | .int n => n != 0
  | .bool b => b
  | .list l => !l.isEmpty

mutual

/-- Simplified Python `repr` of a value, used only inside `pyStr` of a
list (Python `repr` quotes strings; the exact quote-choice heuristics
are immaterial to the embedded code). -/
def pyRepr : PyVal → String
  | .none => "None"
  | .str s => "\x27" ++ s ++ "\x27"
  | .int n => toString n
  | .bool b => if b then "True" else "False"
  | .list l => "[" ++ String.intercalate ", " (pyReprList l) ++ "]"

/-- `repr` of each element of a Python list. -/
def pyReprList : List PyVal → List String
  | [] => []
  | v :: vs => pyRepr v :: pyReprList vs

end

/-- Python `str(v)`: `str(None) = "None"`, `str` of a string is itself,
ints print in decimal, bools print `True`/`False`. -/
def pyStr : PyVal → String
  | .none => "None"
  | .str s => s
  | .int n => toString n
  | .bool b => if b then "True" else "False"
  | .list l => "[" ++ String.intercalate ", " (pyReprList l) ++ "]"

/-- Python `v == t` for a string `t`: in Python a `str` compares equal
only to an equal `str` (never to `None`, ints, bools or lists). -/
def pyEqStr : PyVal → String → Bool
  | .str s, t => s = t
  | _, _ => false

/-- Association-list model of a Python `dict` (keys kept unique by
`dictInsert`); `lookup` is `d.get(k)` returning `None` as `Option.none`. -/
abbrev PyDict := List (String × PyVal)

/-- `d.get(k)` / `k in d`: first binding of `k` in the association list. -/
def pyLookup (d : PyDict) (k : String) : Option PyVal :=
  (d.find? (fun p => p.1 == k)).map (fun p => p.2)

/-- Assignment `d[k] = v` (also the semantics of a later duplicate key
in a dict literal): overwrites the binding in place when `k` is
present, else appends a new binding at the end. -/
def dictInsert : PyDict → String → PyVal → PyDict
  | [], k, v => [(k, v)]
  | p :: d, k, v => if p.1 == k then (k, v) :: d else p :: dictInsert d k v

/-! ### Model of `json.loads` as observed by the rule matcher

`_get_matching_rules_from_config` observes `json.loads(s)` only through
"did it yield a list, and which string elements does that list have"
(a raised exception and a successful non-list parse both fall back to
plain string equality, and non-string list elements never compare equal
to the incoming event-type string). The parser below follows the JSON
grammar accepted by Python's `json.loads`, including its `NaN` /
`Infinity` / `-Infinity` extensions; it is fuel-indexed with fuel well
above any possible recursion depth. -/

/-- Value of a hex digit in a `\uXXXX` escape. -/
def hexVal (c : Char) : Option Nat :=
  if c.isDigit then some (c.toNat - 48)
  else if 'a' ≤ c ∧ c ≤ 'f' then some (c.toNat - 87)
  else if 'A' ≤ c ∧ c ≤ 'F' then some (c.toNat - 55)
  else Option.none

/-- JSON whitespace (space, tab, newline, carriage return). -/
def isJsonWs (c : Char) : Bool :=
  c == ' ' || c == '\t' || c == '\n' || c == '\r'

/-- Drop leading JSON whitespace. -/
def skipWs : List Char → List Char
  | [] => []
  | c :: cs => if isJsonWs c then skipWs cs else c :: cs

/-- Parse the rest of a JSON string (opening quote already consumed):
content with escapes up to the closing quote. Returns the decoded
content and the remaining input. -/
def parseStringRest : Nat → List Char → Option (List Char × List Char)
  | 0, _ => Option.none
  | _ + 1, [] => Option.none
  | fuel + 1, c :: cs =>
    if c == '"' then some ([], cs)
    else if c == '\\' then
      match cs with
      | [] => Option.none
      | e :: cs2 =>
        let dec : Option (Char × List Char) :=
          if e == '"' then some ('"', cs2)
          else if e == '\\' then some ('\\', cs2)
          else if e == '/' then some ('/', cs2)
          else if e == 'n' then some ('\n', cs2)
          else if e == 't' then some ('\t', cs2)
          else if e == 'r' then some ('\r', cs2)
          else if e == 'b' then some (Char.ofNat 8, cs2)
          else if e == 'f' then some (Char.ofNat 12, cs2)
          else if e == 'u' then
            match cs2 with
            | h1 :: h2 :: h3 :: h4 :: cs3 =>
              match hexVal h1, hexVal h2, hexVal h3, hexVal h4 with
              | some a, some b, some c2, some d =>
                some (Char.ofNat (((a * 16 + b) * 16 + c2) * 16 + d), cs3)
              | _, _, _, _ => Option.none
            | _ => Option.none
          else Option.none
        match dec with
        | some (ch, rest) =>
          match parseStringRest fuel rest with
          | some (content, rem) => some (ch :: content, rem)
          | Option.none => Option.none
        | Option.none => Option.none
    else if c.toNat < 32 then Option.none
    else
      match parseStringRest fuel cs with
      | some (content, rem) => some (c :: content, rem)
      | Option.none => Option.none

/-- Take the maximal run of decimal digits. -/
def takeDigits : List Char → List Char × List Char
  | [] => ([], [])
  | c :: cs =>
    if c.isDigit then
      let (d, r) := takeDigits cs
      (c :: d, r)
    else ([], c :: cs)

/-- Parse the optional fraction and exponent of a JSON number. -/
def parseFracExp (input : List Char) : Option (List Char) :=
  let afterFrac : Option (List Char) :=
    match input with
    | '.' :: cs =>
      let (d, r) := takeDigits cs
      if d.isEmpty then Option.none else some r
    | cs => some cs
  match afterFrac with
  | Option.none => Option.none
  | some r =>
    match r with
    | 'e' :: cs | 'E' :: cs =>
      let cs2 : List Char :=
        match cs with
        | '+' :: t => t
        | '-' :: t => t
        | t => t
      let (d, r2) := takeDigits cs2
      if d.isEmpty then Option.none else some r2
    | _ => some r

/-- Parse a JSON number (`-? int frac? exp?`, no leading zeros). -/
def parseNumber (input : List Char) : Option (List Char) :=
  let body : List Char :=
    match input with
    | '-' :: cs => cs
    | cs => cs
  match body with
  | [] => Option.none
  | c :: cs =>
    if c == '0' then parseFracExp cs
    else if c.isDigit then parseFracExp (takeDigits cs).2
    else Option.none

/-- Strip an expected literal from the front of the input. -/
def stripLit (lit : List Char) (input : List Char) : Option (List Char) :=
  match lit, input with
  | [], r => some r
  | p :: ps, c :: cs => if p == c then stripLit ps cs else Option.none
  | _ :: _, [] => Option.none

mutual

/-- Parse one JSON value. Returns the decoded content when the value is
a string (`Option.none` for every other kind of value) and the
remaining input. -/
def parseValue : Nat → List Char → Option (Option String × List Char)
  | 0, _ => Option.none
  | fuel + 1, input =>
    match skipWs input with
    | [] => Option.none
    | c :: cs =>
      if c == '"' then
        match parseStringRest fuel cs with
        | some (content, rem) => some (some (String.mk content), rem)
        | Option.none => Option.none
      else if c == '[' then
        match parseArrayRest fuel cs true with
        | some (_, rem) => some (Option.none, rem)
        | Option.none => Option.none
      else if c == '\x7b' then
        match parseObjectRest fuel cs true with
        | some rem => some (Option.none, rem)
        | Option.none => Option.none
      else
        match stripLit ['t', 'r', 'u', 'e'] (c :: cs) with
        | some rem => some (Option.none, rem)
        | Option.none =>
        match stripLit ['f', 'a', 'l', 's', 'e'] (c :: cs) with
        | some rem => some (Option.none, rem)
        | Option.none =>
        match stripLit ['n', 'u', 'l', 'l'] (c :: cs) with
        | some rem => some (Option.none, rem)
        | Option.none =>
        match stripLit ['N', 'a', 'N'] (c :: cs) with
        | some rem => some (Option.none, rem)
        | Option.none =>
        match stripLit ['I', 'n', 'f', 'i', 'n', 'i', 't', 'y'] (c :: cs) with
        | some rem => some (Option.none, rem)
        | Option.none =>
        match stripLit ['-', 'I', 'n', 'f', 'i', 'n', 'i', 't', 'y'] (c :: cs) with
        | some rem => some (Option.none, rem)
        | Option.none =>
        match parseNumber (c :: cs) with
        | some rem => some (Option.none, rem)
        | Option.none => Option.none

/-- Parse the rest of a JSON array (after `[`): comma-separated values,
then `]`. `first` is true while no element has been parsed (so `]` may
come immediately). Collects the string elements. -/
def parseArrayRest : Nat → List Char → Bool → Option (List String × List Char)
  | 0, _, _ => Option.none
  | fuel + 1, input, first =>
    match skipWs input with
    | ']' :: cs => if first then some ([], cs) else Option.none
    | ws =>
      match parseValue fuel ws with
      | Option.none => Option.none
      | some (elem, rem) =>
        match skipWs rem with
        | ',' :: cs2 =>
          match parseArrayRest fuel cs2 false with
          | some (elems, rem2) =>
            some ((match elem with | some s => s :: elems | Option.none => elems), rem2)
          | Option.none => Option.none
        | ']' :: cs2 =>
          some ((match elem with | some s => [s] | Option.none => []), cs2)
        | _ => Option.none

/-- Parse the rest of a JSON object (after the opening brace):
`"key": value` members separated by commas, then the closing brace.
Only well-formedness matters to the embedded code. -/
def parseObjectRest : Nat → List Char → Bool → Option (List Char)
  | 0, _, _ => Option.none
  | fuel + 1, input, first =>
    match skipWs input with
    | '\x7d' :: cs => if first then some cs else Option.none
    | '"' :: cs =>
      match parseStringRest fuel cs with
      | Option.none => Option.none
      | some (_, rem) =>
        match skipWs rem with
        | ':' :: cs2 =>
          match parseValue fuel cs2 with
          | Option.none => Option.none
          | some (_, rem2) =>
            match skipWs rem2 with
            | ',' :: cs3 => parseObjectRest fuel cs3 false
            | '\x7d' :: cs3 => some cs3
            | _ => Option.none
        | _ => Option.none
    | _ => Option.none

end

/-- Model of Python `json.loads(s)` restricted to what the rule matcher
observes: `some elems` when `s` parses as a JSON array whose string
elements are `elems`; `Option.none` when `s` is not valid JSON (the
call raises) or parses to a non-array value — both make the code fall
back to plain string equality. -/
def jsonLoadsList (s : String) : Option (List String) :=
  let cs := s.toList
  match skipWs cs with
  | '[' :: rest =>
    match parseArrayRest (2 * cs.length + 4) rest true with
    | some (elems, rem) => if (skipWs rem).isEmpty then some elems else Option.none
    | Option.none => Option.none
  | _ => Option.none

/-! ### Rule matching (`_get_matching_rules_from_config`) -/

/-- Python `t in l` for the incoming event-type string `t` against a
list value: membership via `==` on each element (only string elements
can compare equal to a string). -/
def pyListContainsStr (l : List PyVal) (t : String) : Bool :=
  l.any (fun v => pyEqStr v t)

/-- `v is None` for a `PyVal`. -/
def pyIsNone : PyVal → Bool
  | .none => true
  | _ => false

/-- Event-type condition of `_get_matching_rules_from_config`
(webhook_forwarder.py lines 248-268): `None` matches every event type;
a list matches by membership; a string is first tried as JSON — if it
parses to a JSON list, membership in that list decides, otherwise
(parse error or non-list value) plain string equality decides; any
other value shape is a non-match. -/
def eventTypeMatch (ruleEventType : PyVal) (eventType : String) : Bool :=
  match ruleEventType with
  | .none => true
  | .list l => pyListContainsStr l eventType
  | .str s =>
    match jsonLoadsList s with
    | some elems => elems.contains eventType
    | Option.none => s == eventType
  | _ => false

/-- Scope condition of `_get_matching_rules_from_config`
(webhook_forwarder.py lines 270-278): defaults to true; only when the
event carries a truthy `scope_type` and a truthy `scope_id` and the
rule's `scope_type` is not `None` does it require the rule's
`scope_type` to equal the event's (Python `==`) and
`str(rule_scope_id)` to equal `str(scope_id)`. -/
def scopeMatch (ruleScopeType ruleScopeId : PyVal)
    (scopeType scopeId : Option String) : Bool :=
  match scopeType, scopeId with
  | some st, some si =>
    if !st.isEmpty && !si.isEmpty && !(pyIsNone ruleScopeType) then
      pyEqStr ruleScopeType st && (pyStr ruleScopeId == si)
    else true
  | _, _ => true

/-- A webhook rule as read from the YAML config. `name` and
`webhook_url` model `rule["name"]` / `rule["webhook_url"]`
(`Option.none` = key absent, so access raises `KeyError`); `enabled`
models the raw `"enabled"` entry (`Option.none` = key absent, so
`rule.get("enabled", True)` yields `True`); the remaining fields model
`rule.get(...)` values, whose absent-key default `None` coincides with
`PyVal.none`. -/
structure Rule where
  name : Option PyVal
  webhook_url : Option PyVal
  enabled : Option PyVal
  event_type : PyVal
  scope_type : PyVal
  scope_id : PyVal

/-- `rule.get("enabled", True)` is truthy (webhook_forwarder.py line
245). -/
def ruleEnabled (r : Rule) : Bool :=
  pyTruthy (r.enabled.getD (PyVal.bool true))

/-- The rule loop of `_get_matching_rules_from_config`
(webhook_forwarder.py lines 243-281): skip disabled rules, keep a rule
iff the event-type and scope conditions both hold, preserving the
configured order. -/
def matchLoop (eventType : String) (scopeType scopeId : Option String) :
    List Rule → List Rule
  | [] => []
  | r :: rs =>
    if !(ruleEnabled r) then matchLoop eventType scopeType scopeId rs
    else if eventTypeMatch r.event_type eventType &&
        scopeMatch r.scope_type r.scope_id scopeType scopeId then
      r :: matchLoop eventType scopeType scopeId rs
    else matchLoop eventType scopeType scopeId rs

/-- The forwarder's config as observed by the embedded code: the Python
truthiness of the dict (`if not self.config`) and
`config.get("webhook_rules", [])`. -/
structure Config where
  isTruthy : Bool
  webhook_rules : List Rule

/-- `_get_matching_rules_from_config` (webhook_forwarder.py lines
230-283): empty for a falsy config, otherwise the rule loop over the
configured rules. -/
def getMatchingRulesFromConfig (cfg : Config) (eventType : String)
    (scopeType scopeId : Option String) : List Rule :=
  if !cfg.isTruthy then []
  else matchLoop eventType scopeType scopeId cfg.webhook_rules

/-! ### Scope derivation and delivery (`handle_event`) -/

/-- The `elif "channel_id" in data` arm of the scope derivation in
`handle_event` (webhook_forwarder.py lines 56-58). -/
def deriveScopeChannel (data : PyDict) : Option String × Option String :=
  match pyLookup data "channel_id" with
  | some c => (some "channel", some (pyStr c))
  | Option.none => (Option.none, Option.none)

/-- Scope derivation of `handle_event` (webhook_forwarder.py lines
48-58): a truthy `guild_id` wins, else any present `channel_id`; the
chosen id goes through Python `str`. -/
def deriveScope (data : PyDict) : Option String × Option String :=
  match pyLookup data "guild_id" with
  | some g =>
    if pyTruthy g then (some "guild", some (pyStr g))
    else deriveScopeChannel data
  | Option.none => deriveScopeChannel data

/-- Result of an HTTP POST as seen by the calling code: either the call
raised (network error, timeout, serialization failure, invalid URL) or
it returned a response with the given status code. -/
inductive PostResult where
  | exc : PostResult
  | status (code : Nat) : PostResult

/-- Oracle for `self.session.post(url, json=payload)`: maps the url
value and the payload to the observed result. -/
abbrev PostOracle := PyVal → PyDict → PostResult

/-- Outcome of one `_forward_to_webhook_sync` call: early return on a
missing session, 200/204 success, a logged warning for any other
status, or a caught exception. The function itself never raises. -/
inductive DeliveryOutcome where
  | noSession : DeliveryOutcome
  | success (code : Nat) : DeliveryOutcome
  | warned (code : Nat) : DeliveryOutcome
  | errored : DeliveryOutcome

/-- The payload literal of `_forward_to_webhook_sync`
(webhook_forwarder.py lines 104-109): the three envelope keys are
written first and `**data` is spliced last, so a duplicate key is
resolved the way a Python dict literal resolves it — the later
(event-data) value overwrites the envelope value. `now` stands for
`datetime.now(timezone.utc).isoformat()`. -/
def buildPayload (eventType : String) (ruleName : PyVal) (now : String)
    (data : PyDict) : PyDict :=
  data.foldl (fun acc p => dictInsert acc p.1 p.2)
    [("event_type", PyVal.str eventType), ("rule_name", ruleName),
     ("timestamp", PyVal.str now)]

/-- `_forward_to_webhook_sync` (webhook_forwarder.py lines 94-130):
returns early when the session is not initialized; otherwise builds the
payload, POSTs it, and classifies the response status
(`in [200, 204]` is success); the whole attempt sits in a
`try/except Exception` that logs and swallows any error. -/
def forwardToWebhookSync (post : PostOracle) (sessionInit : Bool)
    (now : String) (webhookUrl : PyVal) (ruleName : PyVal)
    (eventType : String) (data : PyDict) : DeliveryOutcome :=
  if !sessionInit then .noSession
  else
    match post webhookUrl (buildPayload eventType ruleName now data) with
    | .exc => .errored
    | .status code =>
      if code == 200 || code == 204 then .success code else .warned code

/-- Python exceptions distinguished by the embedding of `handle_event`:
only dictionary-key access can raise there. -/
inductive PyError where
  | keyError (k : String) : PyError

/-- The fan-out loop of `handle_event` (webhook_forwarder.py lines
79-89): per matched rule, the f-string `rule['name']` and the
`rule["webhook_url"]` access raise `KeyError` when the key is absent
(aborting the loop; the error is later caught by `handle_event`);
otherwise `_forward_to_webhook_sync` is invoked, which never raises.
Returns the outcomes of the attempted deliveries and the pending
error, if any. -/
def forwardLoop (post : PostOracle) (sessionInit : Bool) (now : String)
    (eventType : String) (data : PyDict) :
    List Rule → List DeliveryOutcome × Option PyError
  | [] => ([], Option.none)
  | r :: rs =>
    match r.name with
    | Option.none => ([], some (.keyError "name"))
    | some nm =>
      match r.webhook_url with
      | Option.none => ([], some (.keyError "webhook_url"))
      | some url =>
        let rest := forwardLoop post sessionInit now eventType data rs
        (forwardToWebhookSync post sessionInit now url nm eventType data :: rest.1,
         rest.2)

/-- The `except Exception` clause of `handle_event`: a pending
exception is logged and swallowed, never re-raised, so the result is
`ok` either way. -/
def exceptSwallow (outs : List DeliveryOutcome) :
    Option PyError → Except PyError (List DeliveryOutcome)
  | some _ => .ok outs
  | Option.none => .ok outs

/-- `handle_event` (webhook_forwarder.py lines 42-92): derives the
scope, matches rules, and forwards to each match; the whole body sits
in a `try/except Exception` that logs and swallows any error, so no
exception reaches the caller (`.error` would model one escaping). The
`ok` payload records the delivery outcomes of the attempted targets. -/
def handleEvent (post : PostOracle) (cfg : Config) (sessionInit : Bool)
    (now : String) (eventType : String) (data : PyDict) :
    Except PyError (List DeliveryOutcome) :=
  let scope := deriveScope data
  let rules := getMatchingRulesFromConfig cfg eventType scope.1 scope.2
  let fl := forwardLoop post sessionInit now eventType data rules
  exceptSwallow fl.1 fl.2

/-- `test_webhook_sync` (webhook_forwarder.py lines 205-228): POSTs a
fixed test payload through a temporary client and returns
`response.status_code == 204`; any exception is caught and yields
`False`. `resp` is the observed result of that POST. -/
def testWebhookSync (resp : PostResult) : Bool :=
  match resp with
  | .exc => false
  | .status code => code == 204

/-! ### Gateway event handlers (`bot_manager.py`) -/

/-- The fields of a Discord user/member object read by the handlers:
its `str(...)` rendering, its id, and the `bot` flag. -/
structure DUser where
  repr : String
  id : Int
  bot : Bool

/-- The fields of `message.channel` read by `_build_message_data`.
`isThread` models `isinstance(message.channel, discord.Thread)`;
`parentRepr` is `str(channel.parent)` when the parent is set. -/
structure DChannelRef where
  repr : String
  id : Int
  name : String
  isThread : Bool
  parentRepr : Option String
  parentId : Option Int

/-- The fields of a guild object read by the handlers. -/
structure DGuildRef where
  repr : String
  id : Int

/-- The fields of `discord.Message` read by `on_message` and
`_build_message_data`. -/
structure DMessage where
  content : String
  author : DUser
  channel : DChannelRef
  guild : Option DGuildRef
  createdAtIso : String

/-- `_build_message_data` (bot_manager.py lines 156-183). -/
def buildMessageData (m : DMessage) : PyDict :=
  [("content", PyVal.str m.content),
   ("author", PyVal.str m.author.repr),
   ("author_id", PyVal.int m.author.id),
   ("channel", PyVal.str m.channel.repr),
   ("channel_id", PyVal.int m.channel.id),
   ("guild", match m.guild with
     | some g => PyVal.str g.repr
     | Option.none => PyVal.none),
   ("guild_id", match m.guild with
     | some g => PyVal.int g.id
     | Option.none => PyVal.none),
   ("timestamp", PyVal.str m.createdAtIso),
   ("is_thread", PyVal.bool m.channel.isThread),
   ("thread_id", if m.channel.isThread then PyVal.int m.channel.id
     else PyVal.none),
   ("thread_name", if m.channel.isThread then PyVal.str m.channel.name
     else PyVal.none),
   ("parent_channel", match m.channel.parentRepr with
     | some p => if m.channel.isThread then PyVal.str p else PyVal.none
     | Option.none => PyVal.none),
   ("parent_channel_id", if m.channel.isThread then
       (match m.channel.parentId with
        | some i => PyVal.int i
        | Option.none => PyVal.none)
     else PyVal.none)]

/-- The fields of `discord.Reaction` (and its message) read by
`_build_reaction_data`. -/
structure DReaction where
  emojiRepr : String
  messageId : Int
  channelRepr : String
  channelId : Int
  guild : Option DGuildRef

/-- `_build_reaction_data` (bot_manager.py lines 212-232). -/
def buildReactionData (r : DReaction) (u : DUser) : PyDict :=
  [("emoji", PyVal.str r.emojiRepr),
   ("user", PyVal.str u.repr),
   ("user_id", PyVal.int u.id),
   ("message_id", PyVal.int r.messageId),
   ("channel", PyVal.str r.channelRepr),
   ("channel_id", PyVal.int r.channelId),
   ("guild", match r.guild with
     | some g => PyVal.str g.repr
     | Option.none => PyVal.none),
   ("guild_id", match r.guild with
     | some g => PyVal.int g.id
     | Option.none => PyVal.none)]

/-- The dispatch decision of the `on_message` handler (bot_manager.py
lines 66-92): the registered event handler is invoked — with event
type "message" and the built message data — iff a handler is set and
`message.author.bot` is false; otherwise it is not invoked at all. -/
def onMessage (handlerSet : Bool) (m : DMessage) :
    Option (String × PyDict) :=
  if handlerSet && !m.author.bot then some ("message", buildMessageData m)
  else Option.none

/-- The dispatch decision of the `on_reaction_add` handler
(bot_manager.py lines 118-130): the registered event handler is
invoked iff a handler is set and the reacting `user.bot` is false. -/
def onReactionAdd (handlerSet : Bool) (r : DReaction) (u : DUser) :
    Option (String × PyDict) :=
  if handlerSet && !u.bot then some ("reaction_add", buildReactionData r u)
  else Option.none

/-! ### Process supervision (`src/listener_manager.py`) -/

/-- The OS and filesystem facts the `ListenerManager` methods observe:
the set of pids the OS reports alive (`/proc/<pid>` present or
`os.kill(pid, 0)` succeeding), the content of the PID file
(`Option.none` = file absent), and whether `discord_listener.py`
exists. -/
structure OSState where
  livePids : List Int
  pidFile : Option String
  scriptExists : Bool

/-- `_is_process_running` (listener_manager.py lines 61-77): the OS
reports the pid alive. The permission-error fallback also answers
False in the source, so aliveness is exactly membership in the live
set. -/
def isProcessRunning (os : OSState) (pid : Int) : Bool :=
  os.livePids.contains pid

/-- ASCII whitespace stripped by Python `str.strip()` (the further
Unicode whitespace Python strips cannot occur in a PID file the
manager itself wrote). -/
def isPySpace (c : Char) : Bool :=
  c == ' ' || c == '\t' || c == '\n' || c == '\r' || c == '\x0b' || c == '\x0c'

/-- Digit run of a Python integer literal after the first digit:
decimal digits with single underscores allowed between digits. -/
def pyDigitsAux : Nat → List Char → Option Nat
  | acc, [] => some acc
  | acc, c :: cs =>
    if c.isDigit then pyDigitsAux (acc * 10 + (c.toNat - 48)) cs
    else if c == '_' then
      match cs with
      | d :: cs2 =>
        if d.isDigit then pyDigitsAux (acc * 10 + (d.toNat - 48)) cs2
        else Option.none
      | [] => Option.none
    else Option.none

/-- Python `int(s)` on an already-stripped string: optional sign, then
a nonempty digit run (underscore separators allowed); anything else
raises `ValueError`, modelled as `Option.none`. -/
def pyIntParse (cs : List Char) : Option Int :=
  let digits : List Char → Option Nat := fun l =>
    match l with
    | [] => Option.none
    | c :: rest =>
      if c.isDigit then pyDigitsAux (c.toNat - 48) rest else Option.none
  match cs with
  | '+' :: rest => (digits rest).map Int.ofNat
  | '-' :: rest => (digits rest).map (fun n => -(Int.ofNat n))
  | rest => (digits rest).map Int.ofNat

/-- `_load_pid` (listener_manager.py lines 30-43): read the PID file,
strip surrounding whitespace, parse a decimal integer; an absent file,
empty content, or a parse failure (the caught `ValueError`) all yield
`None`. -/
def loadPid (os : OSState) : Option Int :=
  match os.pidFile with
  | Option.none => Option.none
  | some content =>
    let cs :=
      ((content.toList.dropWhile isPySpace).reverse.dropWhile isPySpace).reverse
    if cs.isEmpty then Option.none else pyIntParse cs

/-- `_remove_pid` (listener_manager.py lines 53-59). -/
def removePid (os : OSState) : OSState :=
  { os with pidFile := Option.none }

/-- `_save_pid` (listener_manager.py lines 45-51): writes `str(pid)`. -/
def savePid (os : OSState) (pid : Int) : OSState :=
  { os with pidFile := some (toString pid) }

/-- The manager's state: the OS view plus `self.process`, modelled by
the pid of the held `Popen` handle (`Option.none` when no handle);
`poll()` reports the handle still running iff the OS reports its pid
alive. -/
structure LMState where
  os : OSState
  proc : Option Int

/-- The PID-file arm of `is_running` (listener_manager.py lines
89-100): a recorded pid the OS confirms alive answers true; a recorded
pid the OS reports dead is cleaned up (the PID file is removed) and
the answer is false; no usable record answers false. -/
def isRunningPidFile (s : LMState) : Bool × LMState :=
  match loadPid s.os with
  | some pid =>
    if isProcessRunning s.os pid then (true, s)
    else (false, { s with os := removePid s.os })
  | Option.none => (false, s)

/-- `is_running` (listener_manager.py lines 79-100): a live in-memory
handle answers true; a dead handle is dropped (`self.process = None`)
and the PID file is consulted. -/
def isRunning (s : LMState) : Bool × LMState :=
  match s.proc with
  | some pid =>
    if isProcessRunning s.os pid then (true, s)
    else isRunningPidFile { s with proc := Option.none }
  | Option.none => isRunningPidFile s

/-- Result of `subprocess.Popen` plus the 1-second settle sleep seen by
`start`: the spawn raised, or produced a handle with the given pid and
left the OS in the given state. -/
inductive SpawnResult where
  | exc : SpawnResult
  | ok (pid : Int) (os : OSState) : SpawnResult

/-- Oracle for process creation in `start`. -/
abbrev SpawnOracle := OSState → SpawnResult

/-- `start` (listener_manager.py lines 102-145), together with a flag
recording whether `Popen` was invoked: refuses (False, no launch) when
`is_running()` answers true or when the listener script is missing;
otherwise spawns, sleeps, re-checks `is_running()`, and on success
persists the new pid. When the re-check succeeds via the PID file
after the handle was dropped, `self.process.pid` raises
`AttributeError`, which the surrounding `except` turns into a False
return with `self.process = None`. Every exception inside the launch
block is caught, so the function itself never raises. -/
def start (spawn : SpawnOracle) (s : LMState) : Bool × LMState × Bool :=
  let rs := isRunning s
  if rs.1 then (false, rs.2, false)
  else if !rs.2.os.scriptExists then (false, rs.2, false)
  else
    match spawn rs.2.os with
    | .exc => (false, { rs.2 with proc := Option.none }, true)
    | .ok pid os2 =>
      let rs2 := isRunning ⟨os2, some pid⟩
      if rs2.1 then
        match rs2.2.proc with
        | some p => (true, { rs2.2 with os := savePid rs2.2.os p }, true)
        | Option.none => (false, { rs2.2 with proc := Option.none }, true)
      else (false, rs2.2, true)

/-- Oracle for the termination sequence of `stop` (SIGTERM to the
process group, up to 5 seconds of polling at 100ms, SIGKILL
escalation, record cleanup): maps the state after the guard to the
boolean result and the resulting state. -/
abbrev KillOracle := LMState → Bool × LMState

/-- `stop` (listener_manager.py lines 147-217): refuses with False
when `is_running()` answers false; otherwise runs the termination
sequence. -/
def stop (kill : KillOracle) (s : LMState) : Bool × LMState :=
  let rs := isRunning s
  if !rs.1 then (false, rs.2) else kill rs.2

/-! ### Spec-side definitions used for comparison -/

/-- The event-type condition exactly as the claim words it: true when
the rule's `event_type` is null, when it is a list containing the
incoming type, or when it is a scalar equal to the incoming type; any
other shape is a non-match. Stated from the spec's words, for
comparison with the source-derived `eventTypeMatch`. -/
def specEventTypeMatch (ruleEventType : PyVal) (eventType : String) : Bool :=
  match ruleEventType with
  | .none => true
  | .list l => pyListContainsStr l eventType
  | v => pyEqStr v eventType

/-- Sample rule used in the matcher theorems: enabled (key absent, so
the default applies), `event_type = None`, `scope_type = "guild"`,
`scope_id = None`. -/
def ruleGuildNoId : Rule :=
  ⟨some (PyVal.str "r"), some (PyVal.str "u"), Option.none,
   PyVal.none, PyVal.str "guild", PyVal.none⟩

/-- Sample rule: enabled, `event_type = None`, no scope filter. -/
def ruleNoScope : Rule :=
  ⟨some (PyVal.str "r"), some (PyVal.str "u"), Option.none,
   PyVal.none, PyVal.none, PyVal.none⟩

/-- Sample rule: enabled, `event_type = None`, `scope_type = "guild"`,
`scope_id = "42"`. -/
def ruleGuild42 : Rule :=
  ⟨some (PyVal.str "g42"), some (PyVal.str "u"), Option.none,
   PyVal.none, PyVal.str "guild", PyVal.str "42"⟩

/-! ## Theorems -/

/-- `is_running` never changes whether the listener script exists
(it only ever removes the PID file and drops the handle). -/
theorem isRunningPidFile_scriptExists (s : LMState) :
    (isRunningPidFile s).2.os.scriptExists = s.os.scriptExists := by
  unfold isRunningPidFile
  cases loadPid s.os with
  | none => rfl
  | some pid =>
    by_cases h : isProcessRunning s.os pid <;> simp [h, removePid]

theorem isRunning_scriptExists (s : LMState) :
    (isRunning s).2.os.scriptExists = s.os.scriptExists := by
  obtain ⟨os, proc⟩ := s
  cases proc with
  | none => exact isRunningPidFile_scriptExists _
  | some pid =>
    unfold isRunning
    by_cases h : isProcessRunning os pid <;>
      simp [h, isRunningPidFile_scriptExists]

/-- C9: `stop` on a not-running listener returns False (and, being a
total function whose source paths catch every exception, it cannot
raise); `start` refuses — returning False without ever invoking
`Popen` — both when the listener is already running and when the
listener script is missing. -/
theorem c9_refusals (kill : KillOracle) (spawn spawn2 : SpawnOracle)
    (s s2 s3 : LMState)
    (hnot : (isRunning s).1 = false)
    (hrun : (isRunning s2).1 = true)
    (hscript : s3.os.scriptExists = false) :
    (stop kill s).1 = false ∧
    ((start spawn s2).1 = false ∧ (start spawn s2).2.2 = false) ∧
    ((start spawn2 s3).1 = false ∧ (start spawn2 s3).2.2 = false) := by
  refine ⟨?_, ⟨?_, ?_⟩, ?_⟩
  · simp [stop, hnot]
  · simp [start, hrun]
  · simp [start, hrun]
  · have hpres : (isRunning s3).2.os.scriptExists = false :=
      (isRunning_scriptExists s3).trans hscript
    by_cases h : (isRunning s3).1 <;> simp [start, h, hpres]

/-- Witness for C9 at concrete manager states: an empty OS with no
record (not running), a live pid 7 held in memory (running), and a
state with the listener script absent. -/
theorem c9_witness :
    (stop (fun t => (true, t)) ⟨⟨[], Option.none, true⟩, Option.none⟩).1 = false ∧
    (start (fun _ => SpawnResult.exc) ⟨⟨[7], Option.none, true⟩, some 7⟩).1 = false ∧
    (start (fun _ => SpawnResult.exc) ⟨⟨[], Option.none, false⟩, Option.none⟩).2.2 = false := by
  have h := c9_refusals (fun t => (true, t)) (fun _ => SpawnResult.exc)
    (fun _ => SpawnResult.exc)
    ⟨⟨[], Option.none, true⟩, Option.none⟩
    ⟨⟨[7], Option.none, true⟩, some 7⟩
    ⟨⟨[], Option.none, false⟩, Option.none⟩ rfl rfl rfl
  exact ⟨h.1, h.2.1.1, h.2.2.2⟩

/-- When the running-guard answers false and the listener script is
present, `start` always reaches the `Popen` call (its launch flag is
true on every path past the guards). -/
theorem start_invokes_spawn (spawn : SpawnOracle) (s : LMState)
    (h1 : (isRunning s).1 = false)
    (h2 : (isRunning s).2.os.scriptExists = true) :
    (start spawn s).2.2 = true := by
  unfold start
  simp only [h1, h2, Bool.false_eq_true, if_false, Bool.not_true, Bool.false_eq_true]
  rcases hsp : spawn (isRunning s).2.os with _ | ⟨p2, os2⟩ <;> simp [hsp]
  by_cases hr2 : (isRunning ⟨os2, some p2⟩).1
  · cases hpp : (isRunning ⟨os2, some p2⟩).2.proc <;> simp [hr2, hpp]
  · simp [hr2]

/-- C8: with no live in-memory handle and the durable PID file naming
a pid the OS reports dead, `is_running` answers false and removes the
PID file as a side effect; consequently a subsequent `start` is not
refused on account of the stale record — whenever the listener script
exists it proceeds all the way to invoking `Popen`. -/
theorem c8_stale_record_healing (s : LMState) (spawn : SpawnOracle) (pid : Int)
    (hproc : ∀ p, s.proc = some p → isProcessRunning s.os p = false)
    (hfile : loadPid s.os = some pid)
    (hdead : isProcessRunning s.os pid = false) :
    (isRunning s).1 = false ∧
    (isRunning s).2.os.pidFile = Option.none ∧
    (s.os.scriptExists = true → (start spawn s).2.2 = true) := by
  obtain ⟨os, proc⟩ := s
  have hrun : isRunning ⟨os, proc⟩ = (false, ⟨removePid os, Option.none⟩) := by
    cases proc with
    | none => simp [isRunning, isRunningPidFile, hfile, hdead]
    | some p =>
      have hp := hproc p rfl
      simp only at hp
      simp [isRunning, hp, isRunningPidFile, hfile, hdead]
  refine ⟨by rw [hrun], by rw [hrun]; simp [removePid], ?_⟩
  intro hscript
  simp only at hscript
  exact start_invokes_spawn spawn _ (by rw [hrun]) (by rw [hrun]; simp [removePid, hscript])

/-- Witness for C8: empty OS, PID file recording the dead pid 12345,
no in-memory handle, script present. -/
theorem c8_witness :
    (isRunning ⟨⟨[], some "12345", true⟩, Option.none⟩).1 = false ∧
    (isRunning ⟨⟨[], some "12345", true⟩, Option.none⟩).2.os.pidFile = Option.none ∧
    (start (fun _ => SpawnResult.exc) ⟨⟨[], some "12345", true⟩, Option.none⟩).2.2 = true := by
  have h := c8_stale_record_healing ⟨⟨[], some "12345", true⟩, Option.none⟩
    (fun _ => SpawnResult.exc) 12345 (fun p hp => nomatch hp) rfl rfl
  exact ⟨h.1, h.2.1, h.2.2 rfl⟩

/-- C7: `on_message` never invokes the registered event handler for a
message whose author is a bot account, and `on_reaction_add` never
invokes it for a reaction added by a bot account — such events are
dropped before any data is built or routed. -/
theorem c7_bot_events_dropped (hs hs2 : Bool) (m : DMessage) (r : DReaction)
    (u : DUser) (hm : m.author.bot = true) (hu : u.bot = true) :
    onMessage hs m = Option.none ∧ onReactionAdd hs2 r u = Option.none := by
  constructor
  · simp [onMessage, hm]
  · simp [onReactionAdd, hu]

/-- Witness for C7: a concrete bot-authored message and bot reaction,
with a handler registered. -/
theorem c7_witness :
    onMessage true ⟨"hi", ⟨"app#1", 1, true⟩,
      ⟨"general", 2, "general", false, Option.none, Option.none⟩,
      Option.none, "2024-01-01T00:00:00+00:00"⟩ = Option.none ∧
    onReactionAdd true ⟨"+1", 10, "general", 2, Option.none⟩
      ⟨"app#1", 1, true⟩ = Option.none :=
  c7_bot_events_dropped true true _ _ _ rfl rfl

/-- C10: `test_webhook_sync` succeeds exactly on HTTP status 204 — a
200 response, any other status, and a raised exception all yield
False — whereas event delivery in `_forward_to_webhook_sync` counts
both 200 and 204 as success. -/
theorem c10_test_webhook_status (c : Nat) (now : String) (url rn : PyVal)
    (eT : String) (data : PyDict) :
    (testWebhookSync (PostResult.status c) = true ↔ c = 204) ∧
    testWebhookSync PostResult.exc = false ∧
    forwardToWebhookSync (fun _ _ => PostResult.status 200) true now url rn eT data
      = DeliveryOutcome.success 200 ∧
    forwardToWebhookSync (fun _ _ => PostResult.status 204) true now url rn eT data
      = DeliveryOutcome.success 204 := by
  refine ⟨?_, rfl, rfl, rfl⟩
  simp [testWebhookSync]

/-- Witness for C10: a 204 response makes the webhook test succeed. -/
theorem c10_witness : testWebhookSync (PostResult.status 204) = true :=
  (c10_test_webhook_status 204 "" PyVal.none PyVal.none "" []).1.mpr rfl

/-- The rule loop is a filter: it keeps, in order, exactly the enabled
rules whose event-type and scope conditions hold. -/
theorem matchLoop_eq_filter (eT : String) (st si : Option String)
    (rs : List Rule) :
    matchLoop eT st si rs = rs.filter (fun r =>
      ruleEnabled r &&
      (eventTypeMatch r.event_type eT &&
       scopeMatch r.scope_type r.scope_id st si)) := by
  induction rs with
  | nil => rfl
  | cons r rest ih =>
    by_cases he : ruleEnabled r
    · by_cases hc : eventTypeMatch r.event_type eT &&
        scopeMatch r.scope_type r.scope_id st si
      · simp [matchLoop, List.filter_cons, he, hc, ih]
      · simp [matchLoop, List.filter_cons, he, hc, ih]
    · simp [matchLoop, List.filter_cons, he, ih]

/-- C5: `_get_matching_rules_from_config` never returns a rule whose
`enabled` field is `False`, regardless of its other fields, and the
returned rules form a sublist of the configured rule sequence, so
their relative order is the configured one. -/
theorem c5_disabled_skipped_order_preserved (cfg : Config) (eT : String)
    (st si : Option String) :
    (∀ r ∈ getMatchingRulesFromConfig cfg eT st si,
       r.enabled ≠ some (PyVal.bool false)) ∧
    (getMatchingRulesFromConfig cfg eT st si).Sublist cfg.webhook_rules := by
  unfold getMatchingRulesFromConfig
  by_cases h : cfg.isTruthy
  · simp only [h, Bool.not_true, Bool.false_eq_true, if_false]
    rw [matchLoop_eq_filter]
    constructor
    · intro r hr contra
      have hp := (List.mem_filter.mp hr).2
      rw [Bool.and_eq_true] at hp
      have he := hp.1
      rw [ruleEnabled, contra] at he
      simp [pyTruthy] at he
    · exact List.filter_sublist _
  · simp [h]

/-- Witness for C5 on a concrete config holding a disabled rule and an
enabled one. -/
theorem c5_witness :
    (getMatchingRulesFromConfig
      ⟨true, [⟨some (PyVal.str "off"), some (PyVal.str "u"),
               some (PyVal.bool false), PyVal.none, PyVal.none, PyVal.none⟩,
              ruleNoScope]⟩
      "message" Option.none Option.none).Sublist
      [⟨some (PyVal.str "off"), some (PyVal.str "u"),
        some (PyVal.bool false), PyVal.none, PyVal.none, PyVal.none⟩,
       ruleNoScope] :=
  (c5_disabled_skipped_order_preserved
    ⟨true, [⟨some (PyVal.str "off"), some (PyVal.str "u"),
             some (PyVal.bool false), PyVal.none, PyVal.none, PyVal.none⟩,
            ruleNoScope]⟩
    "message" Option.none Option.none).2

/-- C1 counterexample: the enabled rule `ruleGuildNoId`
(`scope_type = "guild"`, `scope_id = None`, `event_type = None`) is
NOT returned for an event with derived scope `{guild, "42"}` — the
claim predicts it matches every event scope — while the
`scope_type = None` rule `ruleNoScope` IS returned for the same event,
so the two are not handled by the same branch. -/
theorem c1_counterexample :
    getMatchingRulesFromConfig ⟨true, [ruleGuildNoId]⟩
      "message" (some "guild") (some "42") = [] ∧
    getMatchingRulesFromConfig ⟨true, [ruleNoScope]⟩
      "message" (some "guild") (some "42") = [ruleNoScope] :=
  ⟨rfl, rfl⟩

/-- C1 (amended): an enabled, event-type-matching rule with
`scope_type` set and `scope_id = None` matches events carrying no
truthy derived scope (there the scope condition defaults to true, as
for a `scope_type = None` rule), but for an event carrying a truthy
derived scope the comparison `str(None) == str(scope_id)` makes the
rule match only when the event's scope id is the literal string
"None": it is not scope-agnostic. -/
theorem c1_scope_type_only_rule (r : Rule) (eT st si : String)
    (htype : pyIsNone r.scope_type = false) (hid : r.scope_id = PyVal.none)
    (hen : ruleEnabled r = true) (hev : eventTypeMatch r.event_type eT = true)
    (hst : st.isEmpty = false) (hsi : si.isEmpty = false)
    (hnone : si ≠ "None") :
    matchLoop eT Option.none Option.none [r] = [r] ∧
    matchLoop eT (some st) (some si) [r] = [] ∧
    (pyEqStr r.scope_type st = true →
      matchLoop eT (some st) (some "None") [r] = [r]) := by
  refine ⟨?_, ?_, ?_⟩
  · simp [matchLoop, hen, hev, scopeMatch]
  · have hsm : scopeMatch r.scope_type r.scope_id (some st) (some si) = false := by
      have hne : (("None" : String) == si) = false :=
        beq_eq_false_iff_ne.mpr (fun hcontra => hnone hcontra.symm)
      simp [scopeMatch, hst, hsi, htype, hid, pyStr, hne]
    simp [matchLoop, hen, hev, hsm]
  · intro hpe
    have hsm : scopeMatch r.scope_type r.scope_id (some st) (some "None") = true := by
      simp [scopeMatch, hst, htype, hid, pyStr, hpe]
    simp [matchLoop, hen, hev, hsm]

/-- Witness for C1 at the concrete rule `ruleGuildNoId` and the scoped
event `{guild, "42"}`. -/
theorem c1_witness :
    matchLoop "message" Option.none Option.none [ruleGuildNoId] = [ruleGuildNoId] ∧
    matchLoop "message" (some "guild") (some "42") [ruleGuildNoId] = [] ∧
    matchLoop "message" (some "guild") (some "None") [ruleGuildNoId]
      = [ruleGuildNoId] := by
  have h := c1_scope_type_only_rule ruleGuildNoId "message" "guild" "42"
    rfl rfl rfl rfl rfl rfl (by decide)
  exact ⟨h.1, h.2.1, h.2.2 rfl⟩

/-- C3 counterexample: the enabled rule `ruleGuild42`
(`scope_type = "guild"`, `scope_id = "42"`, `event_type = None`) IS
returned for an event carrying no derived scope, although the claim
says such events are excluded. -/
theorem c3_counterexample :
    getMatchingRulesFromConfig ⟨true, [ruleGuild42]⟩
      "message" Option.none Option.none = [ruleGuild42] := rfl

/-- C3 (amended): an enabled, event-type-matching rule with
`scope_type = "guild"` and `scope_id = "42"` is returned for derived
scope `{guild, "42"}` and for events carrying no derived scope, and is
excluded for `{channel, "42"}` and for `{guild, "43"}`. -/
theorem c3_guild_scope_rule (r : Rule) (eT : String)
    (hty : r.scope_type = PyVal.str "guild")
    (hid : r.scope_id = PyVal.str "42")
    (hen : ruleEnabled r = true)
    (hev : eventTypeMatch r.event_type eT = true) :
    getMatchingRulesFromConfig ⟨true, [r]⟩ eT (some "guild") (some "42") = [r] ∧
    getMatchingRulesFromConfig ⟨true, [r]⟩ eT (some "channel") (some "42") = [] ∧
    getMatchingRulesFromConfig ⟨true, [r]⟩ eT (some "guild") (some "43") = [] ∧
    getMatchingRulesFromConfig ⟨true, [r]⟩ eT Option.none Option.none = [r] := by
  have h1 : scopeMatch (PyVal.str "guild") (PyVal.str "42")
      (some "guild") (some "42") = true := rfl
  have h2 : scopeMatch (PyVal.str "guild") (PyVal.str "42")
      (some "channel") (some "42") = false := rfl
  have h3 : scopeMatch (PyVal.str "guild") (PyVal.str "42")
      (some "guild") (some "43") = false := rfl
  have h4 : scopeMatch (PyVal.str "guild") (PyVal.str "42")
      Option.none Option.none = true := rfl
  refine ⟨?_, ?_, ?_, ?_⟩ <;>
    simp [getMatchingRulesFromConfig, matchLoop, hen, hev, hty, hid,
      h1, h2, h3, h4]

/-- Witness for C3 at the concrete rule `ruleGuild42`. -/
theorem c3_witness :
    getMatchingRulesFromConfig ⟨true, [ruleGuild42]⟩
      "message" (some "guild") (some "42") = [ruleGuild42] ∧
    getMatchingRulesFromConfig ⟨true, [ruleGuild42]⟩
      "message" (some "channel") (some "42") = [] :=
  ⟨(c3_guild_scope_rule ruleGuild42 "message" rfl rfl rfl rfl).1,
   (c3_guild_scope_rule ruleGuild42 "message" rfl rfl rfl rfl).2.1⟩

/-- C4 counterexample: the string `'["message"]'` is a scalar rule
`event_type` — not null, not a list, and not equal to `"message"` — so
the claim predicts a non-match (`specEventTypeMatch`, the condition as
the claim words it, answers false), but the code parses it as JSON and
matches the incoming type `"message"` by membership. -/
theorem c4_counterexample :
    eventTypeMatch (PyVal.str "[\"message\"]") "message" = true ∧
    specEventTypeMatch (PyVal.str "[\"message\"]") "message" = false :=
  ⟨rfl, rfl⟩

/-- C4 (amended): the event-type condition holds exactly when the
rule's `event_type` is null; or a list containing the incoming type;
or a string that parses as a JSON list containing the incoming type;
or a string that does not parse as a JSON list and is equal to the
incoming type. Any other shape is a non-match. -/
theorem c4_event_type_condition (ret : PyVal) (eT : String) :
    eventTypeMatch ret eT = true ↔
      (ret = PyVal.none ∨
       (∃ l, ret = PyVal.list l ∧ pyListContainsStr l eT = true) ∨
       (∃ s, ret = PyVal.str s ∧
         ((∃ es, jsonLoadsList s = some es ∧ es.contains eT = true) ∨
          (jsonLoadsList s = Option.none ∧ s = eT)))) := by
  cases ret with
  | none => simp [eventTypeMatch]
  | str s =>
    cases h : jsonLoadsList s with
    | none => simp [eventTypeMatch, h]
    | some es => simp [eventTypeMatch, h]
  | int n => simp [eventTypeMatch]
  | bool b => simp [eventTypeMatch]
  | list l => simp [eventTypeMatch]

/-- Witness for C4: a null rule `event_type` matches the incoming
type. -/
theorem c4_witness : eventTypeMatch PyVal.none "message" = true :=
  (c4_event_type_condition PyVal.none "message").mpr (Or.inl rfl)

/-- Lookup in a nonempty dict: the head binding answers when its key
matches, otherwise the tail answers. -/
theorem pyLookup_cons (p : String × PyVal) (d : PyDict) (k : String) :
    pyLookup (p :: d) k = if (p.1 == k) = true then some p.2 else pyLookup d k := by
  by_cases h : (p.1 == k) = true <;> simp [pyLookup, List.find?_cons, h]

/-- Lookup after a dict assignment: the assigned key answers the new
value, every other key is unaffected. -/
theorem pyLookup_dictInsert (d : PyDict) (k k2 : String) (v : PyVal) :
    pyLookup (dictInsert d k v) k2 = if k2 = k then some v else pyLookup d k2 := by
  induction d with
  | nil =>
    by_cases h : k2 = k
    · subst h
      simp [dictInsert, pyLookup_cons]
    · have hb : (k == k2) = false :=
        beq_eq_false_iff_ne.mpr (fun e => h e.symm)
      simp [dictInsert, pyLookup_cons, hb, h, pyLookup]
  | cons p d ih =>
    by_cases hpk : p.1 = k
    · have hb : (p.1 == k) = true := beq_iff_eq.mpr hpk
      by_cases h2 : k2 = k
      · subst h2
        simp [dictInsert, hb, pyLookup_cons]
      · have hb2 : (k == k2) = false :=
          beq_eq_false_iff_ne.mpr (fun e => h2 e.symm)
        have hb3 : (p.1 == k2) = false := by rw [hpk]; exact hb2
        simp [dictInsert, hb, pyLookup_cons, hb2, hb3, h2]
    · have hb : (p.1 == k) = false := beq_eq_false_iff_ne.mpr hpk
      by_cases h3 : p.1 = k2
      · have hb3 : (p.1 == k2) = true := beq_iff_eq.mpr h3
        have h2 : ¬(k2 = k) := fun e => hpk (h3.trans e)
        simp [dictInsert, hb, pyLookup_cons, hb3, h2]
      · have hb3 : (p.1 == k2) = false := beq_eq_false_iff_ne.mpr h3
        simp [dictInsert, hb, pyLookup_cons, hb3, ih]

/-- Splicing bindings none of whose keys is `k` leaves lookups of `k`
unchanged. -/
theorem pyLookup_foldl_of_not_mem (data : PyDict) (acc : PyDict) (k : String)
    (h : ∀ p ∈ data, p.1 ≠ k) :
    pyLookup (data.foldl (fun a p => dictInsert a p.1 p.2) acc) k
      = pyLookup acc k := by
  induction data generalizing acc with
  | nil => rfl
  | cons p rest ih =>
    rw [List.foldl_cons,
      ih (dictInsert acc p.1 p.2) (fun q hq => h q (List.mem_cons_of_mem _ hq)),
      pyLookup_dictInsert]
    have hk : ¬(k = p.1) := fun e => h p (List.mem_cons_self p rest) e.symm
    simp [hk]

/-- With unique keys, splicing `data` into any accumulator makes each
of its bindings win the final lookup. -/
theorem pyLookup_foldl_insert :
    ∀ (data : PyDict) (acc : PyDict) (k : String) (v : PyVal),
      (data.map Prod.fst).Nodup → (k, v) ∈ data →
      pyLookup (data.foldl (fun a p => dictInsert a p.1 p.2) acc) k = some v := by
  intro data
  induction data with
  | nil =>
    intro acc k v _ hkv
    cases hkv
  | cons p rest ih =>
    intro acc k v hnodup hkv
    rw [List.foldl_cons]
    have hnodup2 : p.1 ∉ rest.map Prod.fst ∧ (rest.map Prod.fst).Nodup := by
      rw [List.map_cons] at hnodup
      exact List.nodup_cons.mp hnodup
    rcases List.mem_cons.mp hkv with heq | hmem
    · rw [show p = (k, v) from heq.symm] at hnodup2 ⊢
      have hnotin : ∀ q ∈ rest, q.1 ≠ k := by
        intro q hq e
        have hmem2 : q.1 ∈ rest.map Prod.fst := List.mem_map_of_mem Prod.fst hq
        rw [e] at hmem2
        exact hnodup2.1 hmem2
      rw [pyLookup_foldl_of_not_mem rest _ k hnotin, pyLookup_dictInsert]
      simp
    · exact ih (dictInsert acc p.1 p.2) k v hnodup2.2 hmem

/-- C2 counterexample: with event data `{"timestamp": "T1"}` and the
envelope timestamp `"T0"`, the body built by `_forward_to_webhook_sync`
maps `"timestamp"` to the attribute value, not the envelope's. -/
theorem c2_counterexample :
    pyLookup (buildPayload "message" (PyVal.str "r1") "T0"
      [("timestamp", PyVal.str "T1")]) "timestamp" = some (PyVal.str "T1") ∧
    some (PyVal.str "T1") ≠ some (PyVal.str "T0") := by
  refine ⟨rfl, ?_⟩
  intro h
  simp only [Option.some.injEq, PyVal.str.injEq] at h
  exact absurd h (by decide)

/-- C2 (amended): when an event attribute shares a key with the
envelope (`event_type`, `rule_name`, `timestamp`), the JSON body built
by `_forward_to_webhook_sync` carries the attribute's value — the
event data is spliced after the envelope in the dict literal, so the
attributes win on collision. -/
theorem c2_attributes_win (eT : String) (rn : PyVal) (now : String)
    (data : PyDict) (k : String) (v : PyVal)
    (hnodup : (data.map Prod.fst).Nodup) (hkv : (k, v) ∈ data) :
    pyLookup (buildPayload eT rn now data) k = some v := by
  unfold buildPayload
  exact pyLookup_foldl_insert data _ k v hnodup hkv

/-- Witness for C2 on concrete event data that collides with the
envelope's `timestamp` key. -/
theorem c2_witness :
    pyLookup (buildPayload "message" (PyVal.str "r") "T0"
      [("content", PyVal.str "hi"), ("timestamp", PyVal.str "T1")])
      "timestamp" = some (PyVal.str "T1") :=
  c2_attributes_win "message" (PyVal.str "r") "T0"
    [("content", PyVal.str "hi"), ("timestamp", PyVal.str "T1")]
    "timestamp" (PyVal.str "T1") (by decide)
    (List.mem_cons_of_mem _ (List.mem_cons_self _ _))

/-- `exceptSwallow` never produces an error value. -/
theorem exceptSwallow_isOk (outs : List DeliveryOutcome) (e : Option PyError) :
    (exceptSwallow outs e).isOk = true := by
  cases e <;> rfl

/-- The control flow of the fan-out loop never depends on the POST
oracle: which targets are attempted (their number) and whether the
loop aborts at a key error are identical under any two oracles,
sessions and timestamps. -/
theorem forwardLoop_oracle_independent (post post2 : PostOracle)
    (sess sess2 : Bool) (now now2 : String) (eT : String) (data : PyDict)
    (rules : List Rule) :
    (forwardLoop post sess now eT data rules).1.length
      = (forwardLoop post2 sess2 now2 eT data rules).1.length ∧
    (forwardLoop post sess now eT data rules).2
      = (forwardLoop post2 sess2 now2 eT data rules).2 := by
  induction rules with
  | nil => exact ⟨rfl, rfl⟩
  | cons r rs ih =>
    cases hn : r.name with
    | none => simp [forwardLoop, hn]
    | some nm =>
      cases hu : r.webhook_url with
      | none => simp [forwardLoop, hn, hu]
      | some url =>
        simp only [forwardLoop, hn, hu, List.length_cons]
        exact ⟨by rw [ih.1], ih.2⟩

/-- C6: `handle_event` never lets an exception reach its caller (its
whole body is wrapped in `except Exception`), and a delivery failure —
a raised POST or a non-2xx response, both determined by the POST
oracle — never prevents the delivery attempt to any later matched
target: the number of attempted targets and the loop's abort behaviour
are the same under every POST oracle. -/
theorem c6_no_raise_and_isolation (post post2 : PostOracle) (cfg : Config)
    (sess sess2 : Bool) (now now2 : String) (eT : String) (data : PyDict)
    (rules : List Rule) :
    (handleEvent post cfg sess now eT data).isOk = true ∧
    (forwardLoop post sess now eT data rules).1.length
      = (forwardLoop post2 sess2 now2 eT data rules).1.length ∧
    (forwardLoop post sess now eT data rules).2
      = (forwardLoop post2 sess2 now2 eT data rules).2 := by
  refine ⟨?_, (forwardLoop_oracle_independent post post2 sess sess2
    now now2 eT data rules).1,
    (forwardLoop_oracle_independent post post2 sess sess2
    now now2 eT data rules).2⟩
  unfold handleEvent
  exact exceptSwallow_isOk _ _

end DWP
